import Mathlib

/-!
Shallow embedding of `src/engine/spa_engine/gecko_client.py` (the spa engine
core: unit conversion, state projection, command dispatch, and the connection
lifecycle loop), together with theorems settling the specification claims.

Python floats are modelled as rationals, timestamps as rationals, Python
dictionaries as Lean structures (a dictionary key that some code paths omit
becomes an `Option` field), and `None` as `Option.none`.
-/

namespace SpaEngine

/-! ## Python string primitives

The string operations the code uses (`str.split`, `str.strip`, `str.upper`,
`str.startswith`) are embedded as structural recursions over the character
list of a `String`. -/

/-- `str.split(c)`: split on every occurrence of the separator, keeping empty
chunks. -/
def splitOnCharAux (c : Char) : List Char → List (List Char)
  | [] => [[]]
  | ch :: rest =>
    let r := splitOnCharAux c rest
    if ch = c then [] :: r
    else
      match r with
      | g :: gs => (ch :: g) :: gs
      | [] => [[ch]]

def pySplit (s : String) (c : Char) : List String :=
  (splitOnCharAux c s.data).map (fun l => String.mk l)

/-- `str.strip()`: drop whitespace from both ends. -/
def pyStrip (s : String) : String :=
  String.mk (((s.data.dropWhile Char.isWhitespace).reverse.dropWhile
    Char.isWhitespace).reverse)

/-- `str.upper()`. -/
def pyUpper (s : String) : String :=
  String.mk (s.data.map Char.toUpper)

def startsWithChars : List Char → List Char → Bool
  | _, [] => true
  | [], _ :: _ => false
  | a :: as, b :: bs => a = b && startsWithChars as bs

/-- `str.startswith(pre)`. -/
def pyStartsWith (s pre : String) : Bool :=
  startsWithChars s.data pre.data

/-! ## Unit Converter (`_to_fahrenheit`, `_to_native_temp`, lines 38-53) -/

/-- Python `str(temp_units).upper().startswith("C")`, with `temp_units is None`
handled as in both converters (a `None` unit means no conversion). -/
def celsiusUnits : Option String → Bool
  | none => false
  | some s => pyStartsWith (pyUpper s) "C"

/-- `_to_fahrenheit` (lines 38-45): `None` passes through; a Celsius reading is
converted with `*9/5+32`; anything else is already Fahrenheit. -/
def toFahrenheit (value : Option ℚ) (tempUnits : Option String) : Option ℚ :=
  match value with
  | none => none
  | some v => if celsiusUnits tempUnits then some (v * 9 / 5 + 32) else some v

/-- `_to_native_temp` (lines 48-53): a Fahrenheit setpoint converted to the
device unit: `(x-32)*5/9` for Celsius devices, identity otherwise. -/
def toNativeTemp (valueF : ℚ) (tempUnits : Option String) : ℚ :=
  if celsiusUnits tempUnits then (valueF - 32) * 5 / 9 else valueF

/-! ## State Document data model (`SpaClient._state`) -/

structure Temps where
  currentF : Option ℚ
  setpointF : Option ℚ
  units : String
  deriving Repr, DecidableEq

structure PumpEntry where
  id : String
  label : Option String
  state : String
  speed : Option String
  deriving Repr, DecidableEq

structure ZoneEntry where
  key : String
  name : String
  isOn : Bool
  rgb : Option (List ℚ)
  brightness : Option ℚ
  deriving Repr, DecidableEq

structure InmixInfo where
  available : Bool
  zones : List ZoneEntry
  deriving Repr, DecidableEq

structure LightsInfo where
  isOn : Bool
  colorRgb : Option (List ℚ)
  inmix : Option InmixInfo
  deriving Repr, DecidableEq

structure ErrorEntry where
  code : String
  message : String
  severity : String
  deriving Repr, DecidableEq

/-- The `capabilities` dictionary.  `maxSetpointF` is an `Option` because the
initial document (line 118-124) has the key while the projected document
(lines 466-471) builds the dictionary without it. -/
structure Capabilities where
  canSetTemp : Bool
  pumpsCount : ℕ
  hasLights : Bool
  hasInMix : Bool
  maxSetpointF : Option ℚ
  deriving Repr, DecidableEq

/-- The list of keys present in the `capabilities` dictionary, mirroring the
Python dict literally: the first four keys are always written, `maxSetpointF`
only when the writer included it. -/
def Capabilities.keys (c : Capabilities) : List String :=
  ["canSetTemp", "pumpsCount", "hasLights", "hasInMix"] ++
    (match c.maxSetpointF with
     | some _ => ["maxSetpointF"]
     | none => [])

structure Meta where
  lastUpdated : ℚ
  connectionState : String
  lastError : Option String
  lastErrorAt : Option ℚ
  lastContactAt : Option ℚ
  deriving Repr, DecidableEq

structure Doc where
  temps : Temps
  heater : Bool
  pumps : List PumpEntry
  lights : LightsInfo
  errors : List ErrorEntry
  capabilities : Capabilities
  meta : Meta
  deriving Repr, DecidableEq

/-- The initial `self._state` document from `SpaClient.__init__` (lines
112-132), parameterised by the configured `max_setpoint_f` and the
construction time. -/
def initState (maxSetpointF : ℚ) (now : ℚ) : Doc :=
  { temps := { currentF := none, setpointF := none, units := "F" }
    heater := false
    pumps := []
    lights := { isOn := false, colorRgb := none, inmix := none }
    errors := []
    capabilities :=
      { canSetTemp := false
        pumpsCount := 0
        hasLights := false
        hasInMix := false
        maxSetpointF := some maxSetpointF }
    meta :=
      { lastUpdated := now
        connectionState := "DISCONNECTED"
        lastError := none
        lastErrorAt := none
        lastContactAt := none } }

/-! ## Error projection (lines 442-448 of `_update_state_from_facade`) -/

/-- The body of the `for entry in str(error_state).split(",")` loop (lines
445-448): strip the entry and append it when non-empty. -/
def errStep (acc : List ErrorEntry) (entry : String) : List ErrorEntry :=
  let code := pyStrip entry
  if code ≠ "" then acc ++ [⟨code, code, "unknown"⟩] else acc

/-- The error-list projection applied to the combined error-state string
(lines 444-448): when the string is truthy and is not one of the two sentinel
values, split on commas, strip each entry, and append an entry for each
non-empty stripped code. -/
def projectErrors (errorState : String) : List ErrorEntry :=
  if errorState ≠ "" ∧ errorState ≠ "None" ∧ errorState ≠ "No errors or warnings" then
    (pySplit errorState ',').foldl errStep []
  else []

/-- The error projection as the claim words it: split on commas, trim each
token, drop empty tokens and the two sentinel values token-wise, and map each
surviving token to an entry. -/
def claimProjectErrors (errorState : String) : List ErrorEntry :=
  (((pySplit errorState ',').map pyStrip).filter
      (fun t => t ≠ "" ∧ t ≠ "None" ∧ t ≠ "No errors or warnings")).map
    (fun code => ⟨code, code, "unknown"⟩)

/-! ## Device session model (the geckolib surface the code reads) -/

/-- The `GeckoSpaState` enumeration values distinguished by
`_map_connection_state` (lines 18-35); `other` stands for every remaining
member of the library enumeration. -/
inductive GeckoSpaState where
  | connected
  | connecting
  | locatingSpas
  | locatedSpas
  | spaReady
  | errorSpaNotFound
  | errorNeedsAttention
  | errorPingMissed
  | errorRfFault
  | other
  deriving Repr, DecidableEq

/-- `_map_connection_state` (lines 18-35). -/
def mapConnectionState : GeckoSpaState → String
  | .connected => "CONNECTED"
  | .connecting => "CONNECTING"
  | .locatingSpas => "CONNECTING"
  | .locatedSpas => "CONNECTING"
  | .spaReady => "CONNECTING"
  | .errorSpaNotFound => "ERROR"
  | .errorNeedsAttention => "ERROR"
  | .errorPingMissed => "ERROR"
  | .errorRfFault => "ERROR"
  | .other => "DISCONNECTED"

/-- The accessor keys `_update_state_from_facade` and `command` read from
`facade.spa.accessors`; a missing accessor is `none`. -/
structure Accessors where
  tempUnits : Option String
  displayedTempG : Option ℚ
  rhWaterTemp : Option ℚ
  realSetpointG : Option ℚ
  setpointG : Option ℚ
  heating : Option Bool
  deriving Repr, DecidableEq

/-- `_accessor_value` (lines 56-61): the value of the first present accessor
among the given candidates. -/
def accessorValue : List (Option ℚ) → Option ℚ
  | [] => none
  | some v :: _ => some v
  | none :: rest => accessorValue rest

structure FLight where
  isOn : Bool
  deriving Repr, DecidableEq

structure FPump where
  key : Option String
  name : Option String
  isOn : Bool
  mode : Option String
  isVariableSpeed : Bool
  modes : List String
  deriving Repr, DecidableEq

structure FZone where
  key : String
  name : String
  isOn : Bool
  rgbColor : Option (List ℚ)
  brightness : Option ℚ
  deriving Repr, DecidableEq

structure FInmix where
  isAvailable : Bool
  zones : List FZone
  deriving Repr, DecidableEq

structure WaterHeater where
  isAvailable : Bool
  deriving Repr, DecidableEq

/-- The live control surface (`manager.facade`) as read by `command` and
`_update_state_from_facade`: lights, pumps, water heater, inmix, the error
sensor state string, and the spa accessors. -/
structure Facade where
  lights : List FLight
  pumps : List FPump
  waterHeater : Option WaterHeater
  inmix : Option FInmix
  errorSensor : Option String
  accessors : Accessors
  deriving Repr, DecidableEq

/-- The `EngineSpaManager` fields the projector reads: the library spa state,
the last recorded error event, and the ping sensor timestamp. -/
structure Manager where
  spaState : GeckoSpaState
  lastError : Option String
  lastErrorAt : Option ℚ
  pingSensor : Option ℚ
  deriving Repr, DecidableEq

/-! ## State Projector (`_update_state_from_facade`, lines 375-479) -/

/-- One entry of the projected `pumps` list (lines 404-415): the id prefers a
present `key`, then a truthy `name`, then the synthesised `pump-<idx>`
(1-based); `or` models Python truthiness, so an empty-string name also falls
back. -/
def projectPumpEntry (idx : ℕ) (p : FPump) : PumpEntry :=
  { id :=
      match p.key with
      | some k => k
      | none =>
        match p.name with
        | some n => if n = "" then "pump-" ++ toString idx else n
        | none => "pump-" ++ toString idx
    label := p.name
    state := if p.isOn then "on" else "off"
    speed := p.mode }

def projectPumpsFrom (idx : ℕ) : List FPump → List PumpEntry
  | [] => []
  | p :: rest => projectPumpEntry idx p :: projectPumpsFrom (idx + 1) rest

/-- `enumerate(facade.pumps, start=1)` over the projection. -/
def projectPumps (ps : List FPump) : List PumpEntry :=
  projectPumpsFrom 1 ps

/-- One projected inmix zone (lines 426-436); `list(rgb) if rgb else None`
maps a missing or empty colour to `none`. -/
def projectZone (z : FZone) : ZoneEntry :=
  { key := z.key
    name := z.name
    isOn := z.isOn
    rgb :=
      match z.rgbColor with
      | some (c :: rest) => some (c :: rest)
      | _ => none
    brightness := z.brightness }

/-- The `lights` dictionary built in lines 417-440. -/
def projectLights (lights : List FLight) (inmix : Option FInmix) : LightsInfo :=
  let baseOn := if lights.isEmpty then false else lights.any (fun l => l.isOn)
  match inmix with
  | some im =>
    if im.isAvailable then
      let zones := im.zones.map projectZone
      { isOn := baseOn
        colorRgb :=
          match zones with
          | z :: _ => z.rgb
          | [] => none
        inmix := some { available := true, zones := zones } }
    else { isOn := baseOn, colorRgb := none, inmix := none }
  | none => { isOn := baseOn, colorRgb := none, inmix := none }

/-- `_update_state_from_facade` (lines 375-479): the whole replacement value
assigned to `self._state` under the lock. -/
def updateStateFromFacade (f : Facade) (m : Manager) (now : ℚ) : Doc :=
  let tempUnits := f.accessors.tempUnits
  let currentTemp := accessorValue [f.accessors.displayedTempG, f.accessors.rhWaterTemp]
  let setpoint := accessorValue [f.accessors.realSetpointG, f.accessors.setpointG]
  let heaterOn :=
    match f.accessors.heating with
    | some b => b
    | none => false
  let pumps := projectPumps f.pumps
  let inmixAvailable :=
    match f.inmix with
    | some im => im.isAvailable
    | none => false
  { temps :=
      { currentF := toFahrenheit currentTemp tempUnits
        setpointF := toFahrenheit setpoint tempUnits
        units :=
          match tempUnits with
          | some u => u
          | none => "F" }
    heater := heaterOn
    pumps := pumps
    lights := projectLights f.lights f.inmix
    errors := projectErrors (f.errorSensor.getD "None")
    capabilities :=
      { canSetTemp := setpoint.isSome
        pumpsCount := pumps.length
        hasLights := f.lights.length > 0
        hasInMix := inmixAvailable
        maxSetpointF := none }
    meta :=
      { lastUpdated := now
        connectionState := mapConnectionState m.spaState
        lastError := m.lastError
        lastErrorAt := m.lastErrorAt
        lastContactAt := m.pingSensor } }

/-! ## Meta writers (`_set_error_state`, `_set_connection_state`) -/

/-- The meta-field updates of `_set_error_state` (lines 362-366). -/
def metaSetError (message : String) (now : ℚ) (mt : Meta) : Meta :=
  { mt with
    connectionState := "ERROR"
    lastError := some message
    lastErrorAt := some now
    lastUpdated := now }

/-- The meta-field updates of `_set_connection_state` (lines 371-373). -/
def metaSetConn (cs : String) (now : ℚ) (mt : Meta) : Meta :=
  { mt with connectionState := cs, lastUpdated := now }

/-- `_set_error_state` (lines 359-366): updates the four meta fields of the
current document in place, leaving every other part of the document as it
was. -/
def setErrorState (message : String) (now : ℚ) (d : Doc) : Doc :=
  { d with meta := metaSetError message now d.meta }

/-- `_set_connection_state` (lines 368-373): updates two meta fields of the
current document in place. -/
def setConnectionState (s : String) (now : ℚ) (d : Doc) : Doc :=
  { d with meta := metaSetConn s now d.meta }

/-! ## Command Dispatcher (`SpaClient.command`, lines 168-255) -/

/-- `self._manager`: the manager owns an optional facade besides the fields
the projector reads. -/
structure EngineManager extends Manager where
  facade : Option Facade
  deriving Repr, DecidableEq

/-- A `setpoint_f` payload value as seen through `float(...)`: either a value
the conversion accepts (a number, including a numeric string) or one for
which `float` raises `TypeError`/`ValueError`. -/
inductive SetpointVal where
  | numeric (q : ℚ)
  | nonNumeric
  deriving Repr, DecidableEq

/-- The fields of the command envelope the dispatcher reads. -/
structure CmdPayload where
  ctype : Option String
  onField : Option Bool
  pumpId : Option String
  setpointF : Option SetpointVal
  deriving Repr, DecidableEq

/-- The returned dictionary: `ok` plus an optional `error` string. -/
structure CmdResult where
  ok : Bool
  error : Option String
  deriving Repr, DecidableEq

/-- The actuator calls the dispatcher can issue against the device; pump
actions carry the index of the pump in `facade.pumps`. -/
inductive DeviceAction where
  | lightTurnOn
  | lightTurnOff
  | pumpTurnOn (i : ℕ)
  | pumpTurnOff (i : ℕ)
  | pumpSetMode (i : ℕ) (mode : String)
  | setTargetTemperature (value : ℚ)
  deriving Repr, DecidableEq

/-- The pump-by-id search of lines 198-202: the first pump whose `key` or
`name` equals the requested id, together with its index. -/
def findPumpFrom (i : ℕ) (pid : String) : List FPump → Option (ℕ × FPump)
  | [] => none
  | p :: rest =>
    if p.key = some pid ∨ p.name = some pid then some (i, p)
    else findPumpFrom (i + 1) pid rest

/-- Pump selection (lines 196-204): by id when given and matched, else the
first pump.  Only called on a non-empty pump list. -/
def selectPump (pumps : List FPump) (hd : FPump) (pumpId : Option String) : ℕ × FPump :=
  match pumpId with
  | some pid =>
    match findPumpFrom 0 pid pumps with
    | some ip => ip
    | none => (0, hd)
  | none => (0, hd)

/-- The actuator calls of the `pump.cycle` branch (lines 206-228) for the
selected pump. -/
def pumpCycleActions (i : ℕ) (pump : FPump) : List DeviceAction :=
  if pump.isVariableSpeed then
    if pump.isOn then [.pumpTurnOff i] else [.pumpTurnOn i]
  else
    match pump.modes with
    | [] => if pump.isOn then [.pumpTurnOff i] else [.pumpTurnOn i]
    | m0 :: rest =>
      let modes := m0 :: rest
      let nextIndex :=
        match pump.mode with
        | some cm =>
          if cm ∈ modes then (modes.indexOf cm + 1) % modes.length else 0
        | none => 0
      let nextMode := modes.getD nextIndex ""
      if pyUpper nextMode = "OFF" then [.pumpTurnOff i] else [.pumpSetMode i nextMode]

/-- `SpaClient.command` (lines 168-255): returns the result dictionary, the
actuator calls issued to the device, and the published State Document after
the call (success paths re-project through `_update_state_from_facade`;
failure paths leave it untouched). -/
def command (mgr : Option EngineManager) (maxSetpointF : ℚ) (payload : CmdPayload)
    (doc : Doc) (now : ℚ) : CmdResult × List DeviceAction × Doc :=
  match mgr with
  | none => (⟨false, some "Spa is not connected"⟩, [], doc)
  | some m =>
    match m.facade with
    | none => (⟨false, some "Spa is not connected"⟩, [], doc)
    | some facade =>
      if payload.ctype = some "light.toggle" then
        match facade.lights with
        | [] => (⟨false, some "No lights available"⟩, [], doc)
        | light :: _ =>
          let targetOn := payload.onField.getD (!light.isOn)
          let acts : List DeviceAction := if targetOn then [.lightTurnOn] else [.lightTurnOff]
          (⟨true, none⟩, acts, updateStateFromFacade facade m.toManager now)
      else if payload.ctype = some "pump.cycle" then
        match facade.pumps with
        | [] => (⟨false, some "No pumps available"⟩, [], doc)
        | hd :: _ =>
          let ip := selectPump facade.pumps hd payload.pumpId
          (⟨true, none⟩, pumpCycleActions ip.1 ip.2,
            updateStateFromFacade facade m.toManager now)
      else if payload.ctype = some "temp.set" then
        match facade.waterHeater with
        | none => (⟨false, some "Temperature control unavailable"⟩, [], doc)
        | some wh =>
          if !wh.isAvailable then
            (⟨false, some "Temperature control unavailable"⟩, [], doc)
          else
            match payload.setpointF with
            | none => (⟨false, some "Missing setpoint_f"⟩, [], doc)
            | some .nonNumeric => (⟨false, some "Invalid setpoint_f"⟩, [], doc)
            | some (.numeric v) =>
              let clamped := if v > maxSetpointF then maxSetpointF else v
              let native := toNativeTemp clamped facade.accessors.tempUnits
              (⟨true, none⟩, [.setTargetTemperature native],
                updateStateFromFacade facade m.toManager now)
      else (⟨false, some "Unknown command"⟩, [], doc)

/-! ## Connection Lifecycle loop (`SpaClient._run`, lines 274-357)

One iteration of the `while not self._stop_event.is_set()` loop, abstracted
over the environment: whether the host is configured, whether a recent state
request exists, and how the connection attempt ends.  The model tracks the
`backoff_s` variable and the `await asyncio.sleep(backoff_s)` calls the
iteration performs. -/

/-- How one loop iteration that got past the host and idle checks ends. -/
inductive IterOutcome where
  | discoveryFail
  | facadeFail
  | exn
  | pollIdle
  | pollDrop
  deriving Repr, DecidableEq

/-- The environment of one loop iteration. -/
structure IterInput where
  hostSet : Bool
  recentRequest : Bool
  outcome : IterOutcome
  deriving Repr, DecidableEq

/-- One iteration of `_run` (lines 278-355): given the current `backoff_s`,
returns the `backoff_s` after the iteration and the list of backoff sleeps the
iteration performed.

* no host (line 285-289): sleep `backoff_s`, `continue` — line 355 skipped;
* no recent state request (line 291-294): wait on the request event,
  `continue` — no backoff sleep, line 355 skipped;
* otherwise line 297 sets `backoff_s = 2` before discovery starts, and then:
  discovery failure (306-309) and facade failure (323-327) sleep and
  `continue` past line 355; an exception (350-353) sleeps and then reaches
  line 355; an idle disconnect (345-348) `continue`s; a dropped session falls
  out of the polling loop to line 355. -/
def runIteration (backoff : ℕ) (inp : IterInput) : ℕ × List ℕ :=
  if !inp.hostSet then (backoff, [backoff])
  else if !inp.recentRequest then (backoff, [])
  else
    let b := 2
    match inp.outcome with
    | .discoveryFail => (b, [b])
    | .facadeFail => (b, [b])
    | .exn => (min (b * 2) 30, [b])
    | .pollIdle => (b, [])
    | .pollDrop => (min (b * 2) 30, [])

/-- The backoff sleeps performed by a run of loop iterations. -/
def runSleeps (backoff : ℕ) : List IterInput → List ℕ
  | [] => []
  | inp :: rest =>
    let step := runIteration backoff inp
    step.2 ++ runSleeps step.1 rest

/-- An iteration that reaches a connection attempt and fails it (discovery,
connect, or runtime failure) — the "consecutive connection failure" case of
the backoff claim. -/
def failedAttempt (inp : IterInput) : Prop :=
  inp.hostSet = true ∧ inp.recentRequest = true ∧
    (inp.outcome = .discoveryFail ∨ inp.outcome = .facadeFail ∨ inp.outcome = .exn)

instance (inp : IterInput) : Decidable (failedAttempt inp) := by
  unfold failedAttempt; infer_instance

/-! ## The shared State Document under the lock

`self._state` is a nested dictionary.  The projector replaces it wholesale
(`self._state = { ... }`, line 456), while `_set_error_state` and
`_set_connection_state` mutate the `meta` sub-dictionary of the current
document in place.  `get_state` hands out `copy.deepcopy(self._state)`.  To
make replacement, in-place mutation and deep copies distinguishable, the
`meta` dictionary lives in an explicit store of cells and a document holds a
reference into it. -/

/-- A store of `meta` dictionary cells: contents plus an allocation bound. -/
structure Store where
  mem : ℕ → Meta
  next : ℕ

def Store.read (st : Store) (r : ℕ) : Meta := st.mem r

def Store.write (st : Store) (r : ℕ) (v : Meta) : Store :=
  ⟨fun i => if i = r then v else st.mem i, st.next⟩

def Store.alloc (st : Store) (v : Meta) : ℕ × Store :=
  (st.next, ⟨fun i => if i = st.next then v else st.mem i, st.next + 1⟩)

/-- A State Document whose `meta` dictionary is a store reference. -/
structure HDoc where
  temps : Temps
  heater : Bool
  pumps : List PumpEntry
  lights : LightsInfo
  errors : List ErrorEntry
  capabilities : Capabilities
  metaRef : ℕ

/-- Read a referenced document back into a plain value. -/
def derefDoc (st : Store) (h : HDoc) : Doc :=
  { temps := h.temps
    heater := h.heater
    pumps := h.pumps
    lights := h.lights
    errors := h.errors
    capabilities := h.capabilities
    meta := st.read h.metaRef }

/-- Box a plain document, placing its meta at the given reference. -/
def boxDoc (d : Doc) (r : ℕ) : HDoc :=
  { temps := d.temps
    heater := d.heater
    pumps := d.pumps
    lights := d.lights
    errors := d.errors
    capabilities := d.capabilities
    metaRef := r }

/-- The `SpaClient` shared state: the store, the current `self._state`
document, and `self._last_state_request`. -/
structure Sys where
  store : Store
  doc : HDoc
  lastStateRequest : ℚ

/-- `get_state` (lines 134-136): under the lock, a deep copy of the current
document — a fresh meta cell holding a copy of the current meta.  Nothing
else changes; in particular `_last_state_request` is not touched. -/
def getState (s : Sys) : HDoc × Sys :=
  let copied := s.store.read s.doc.metaRef
  let allocated := s.store.alloc copied
  ({ s.doc with metaRef := allocated.1 }, { s with store := allocated.2 })

/-- `note_state_request` (lines 138-145): records the current time as the
last state request. -/
def noteStateRequest (now : ℚ) (s : Sys) : Sys :=
  { s with lastStateRequest := now }

/-- `_recent_state_request` (lines 147-152). -/
def recentStateRequest (s : Sys) (now timeout : ℚ) : Bool :=
  if s.lastStateRequest ≤ 0 then false
  else decide (now - s.lastStateRequest ≤ timeout)

/-- The three writers of the State Document, each of which runs entirely
inside one `with self._lock` block. -/
inductive WriterOp where
  | project (f : Facade) (m : Manager) (now : ℚ)
  | setErr (message : String) (now : ℚ)
  | setConn (cs : String) (now : ℚ)

/-- The value-level effect of one writer on the published document. -/
def pureWrite : WriterOp → Doc → Doc
  | .project f m now, _ => updateStateFromFacade f m now
  | .setErr message now, d => setErrorState message now d
  | .setConn cs now, d => setConnectionState cs now d

/-- The store-level effect of one writer: the projector allocates a fresh
document (fresh meta cell) and rebinds `self._state`; the two meta writers
overwrite the meta cell of the current document in place. -/
def applyWriter : WriterOp → Sys → Sys
  | .project f m now, s =>
    let d := updateStateFromFacade f m now
    let allocated := s.store.alloc d.meta
    { s with store := allocated.2, doc := boxDoc d allocated.1 }
  | .setErr message now, s =>
    let old := s.store.read s.doc.metaRef
    { s with store := s.store.write s.doc.metaRef (metaSetError message now old) }
  | .setConn cs now, s =>
    let old := s.store.read s.doc.metaRef
    { s with store := s.store.write s.doc.metaRef (metaSetConn cs now old) }

/-- Every lock-protected operation on the shared state. -/
inductive SysOp where
  | write (w : WriterOp)
  | readState
  | note (now : ℚ)

def applySysOp : SysOp → Sys → Sys
  | .write w, s => applyWriter w s
  | .readState, s => (getState s).2
  | .note now, s => noteStateRequest now s

def applySysOps (ops : List SysOp) (s : Sys) : Sys :=
  ops.foldl (fun t op => applySysOp op t) s

/-- The currently published document as a plain value. -/
def docValue (s : Sys) : Doc :=
  derefDoc s.store s.doc

/-- Well-formedness: the current document's meta cell is allocated. -/
def Sys.wf (s : Sys) : Prop :=
  s.doc.metaRef < s.store.next

/-! ## Concrete fixtures used to instantiate the theorems -/

def emptyAccessors : Accessors := ⟨none, none, none, none, none, none⟩

def celsiusAccessors : Accessors := ⟨some "C", none, none, none, none, none⟩

def sampleFacade : Facade := ⟨[], [], none, none, none, emptyAccessors⟩

def sampleEM : EngineManager := ⟨⟨.connected, none, none, none⟩, some sampleFacade⟩

/-- A facade with an available water heater on a Celsius-unit device. -/
def heaterFacade : Facade := ⟨[], [], some ⟨true⟩, none, none, celsiusAccessors⟩

def heaterEM : EngineManager := ⟨⟨.connected, none, none, none⟩, some heaterFacade⟩

def unknownPayload : CmdPayload := ⟨some "nonexistent", none, none, none⟩

def tempPayload150 : CmdPayload := ⟨some "temp.set", none, none, some (.numeric 150)⟩

def tempPayloadNeg : CmdPayload := ⟨some "temp.set", none, none, some (.numeric (-40))⟩

/-! ## Claims -/

/-- C8: for a Celsius-unit device, converting a Fahrenheit value to native
units and back recovers it exactly (over ℚ); for any non-Celsius unit both
conversions are the identity. -/
theorem temp_conversion_roundtrip :
    (∀ (x : ℚ) (u : Option String), celsiusUnits u = true →
      toFahrenheit (some (toNativeTemp x u)) u = some x) ∧
    (∀ (x : ℚ) (u : Option String), celsiusUnits u = false →
      toNativeTemp x u = x ∧ toFahrenheit (some x) u = some x) := by
  constructor
  · intro x u h
    simp [toFahrenheit, toNativeTemp, h]
  · intro x u h
    simp [toFahrenheit, toNativeTemp, h]

/-- Witness for the round-trip theorem at 100°F on a Celsius device and on a
Fahrenheit device. -/
theorem temp_conversion_roundtrip_witness :
    (celsiusUnits (some "C") = true ∧
      toFahrenheit (some (toNativeTemp 100 (some "C"))) (some "C") = some 100) ∧
    (celsiusUnits (some "F") = false ∧ toNativeTemp 100 (some "F") = 100) :=
  ⟨⟨by decide, temp_conversion_roundtrip.1 100 (some "C") (by decide)⟩,
   ⟨by decide, (temp_conversion_roundtrip.2 100 (some "F") (by decide)).1⟩⟩

/-- C9: an unrecognized command type with a live session returns exactly
ok=false / "Unknown command" and leaves the State Document untouched; any
command without a manager or facade returns ok=false / "Spa is not
connected" with no device action and no document change. -/
theorem command_unknown_or_disconnected :
    (∀ (m : EngineManager) (f : Facade) (maxS : ℚ) (p : CmdPayload) (d : Doc) (now : ℚ),
      m.facade = some f →
      p.ctype ≠ some "light.toggle" → p.ctype ≠ some "pump.cycle" →
      p.ctype ≠ some "temp.set" →
      command (some m) maxS p d now = (⟨false, some "Unknown command"⟩, [], d)) ∧
    (∀ (maxS : ℚ) (p : CmdPayload) (d : Doc) (now : ℚ),
      command none maxS p d now = (⟨false, some "Spa is not connected"⟩, [], d)) ∧
    (∀ (m : EngineManager) (maxS : ℚ) (p : CmdPayload) (d : Doc) (now : ℚ),
      m.facade = none →
      command (some m) maxS p d now = (⟨false, some "Spa is not connected"⟩, [], d)) := by
  refine ⟨?_, ?_, ?_⟩
  · intro m f maxS p d now hf h1 h2 h3
    simp [command, hf, h1, h2, h3]
  · intro maxS p d now
    simp [command]
  · intro m maxS p d now hf
    simp [command, hf]

/-- Witness: the command envelope with type "nonexistent" against a live
session. -/
theorem command_unknown_witness :
    (sampleEM.facade = some sampleFacade ∧ unknownPayload.ctype ≠ some "light.toggle") ∧
    command (some sampleEM) 104 unknownPayload (initState 104 0) 5 =
      (⟨false, some "Unknown command"⟩, [], initState 104 0) :=
  ⟨⟨rfl, by decide⟩,
    command_unknown_or_disconnected.1 sampleEM sampleFacade 104 unknownPayload
      (initState 104 0) 5 rfl (by decide) (by decide) (by decide)⟩

/-- C6: `temp.set` with a numeric setpoint above the configured maximum
issues the native-unit equivalent of the maximum (conversion after
clamping); it fails when the water heater is absent or unavailable, when
`setpoint_f` is missing, and when `float()` rejects it. -/
theorem temp_set_clamps_to_max :
    (∀ (m : EngineManager) (f : Facade) (wh : WaterHeater) (maxS v : ℚ)
       (p : CmdPayload) (d : Doc) (now : ℚ),
      m.facade = some f → f.waterHeater = some wh → wh.isAvailable = true →
      p.ctype = some "temp.set" → p.setpointF = some (.numeric v) → v > maxS →
      command (some m) maxS p d now =
        (⟨true, none⟩, [.setTargetTemperature (toNativeTemp maxS f.accessors.tempUnits)],
          updateStateFromFacade f m.toManager now)) ∧
    (∀ (m : EngineManager) (f : Facade) (maxS : ℚ) (p : CmdPayload) (d : Doc) (now : ℚ),
      m.facade = some f → f.waterHeater = none → p.ctype = some "temp.set" →
      command (some m) maxS p d now =
        (⟨false, some "Temperature control unavailable"⟩, [], d)) ∧
    (∀ (m : EngineManager) (f : Facade) (wh : WaterHeater) (maxS : ℚ)
       (p : CmdPayload) (d : Doc) (now : ℚ),
      m.facade = some f → f.waterHeater = some wh → wh.isAvailable = false →
      p.ctype = some "temp.set" →
      command (some m) maxS p d now =
        (⟨false, some "Temperature control unavailable"⟩, [], d)) ∧
    (∀ (m : EngineManager) (f : Facade) (wh : WaterHeater) (maxS : ℚ)
       (p : CmdPayload) (d : Doc) (now : ℚ),
      m.facade = some f → f.waterHeater = some wh → wh.isAvailable = true →
      p.ctype = some "temp.set" → p.setpointF = none →
      command (some m) maxS p d now = (⟨false, some "Missing setpoint_f"⟩, [], d)) ∧
    (∀ (m : EngineManager) (f : Facade) (wh : WaterHeater) (maxS : ℚ)
       (p : CmdPayload) (d : Doc) (now : ℚ),
      m.facade = some f → f.waterHeater = some wh → wh.isAvailable = true →
      p.ctype = some "temp.set" → p.setpointF = some .nonNumeric →
      command (some m) maxS p d now = (⟨false, some "Invalid setpoint_f"⟩, [], d)) := by
  refine ⟨?_, ?_, ?_, ?_, ?_⟩
  · intro m f wh maxS v p d now hf hwh hav hty hsp hv
    simp [command, hf, hwh, hav, hty, hsp, hv]
  · intro m f maxS p d now hf hwh hty
    simp [command, hf, hwh, hty]
  · intro m f wh maxS p d now hf hwh hav hty
    simp [command, hf, hwh, hav, hty]
  · intro m f wh maxS p d now hf hwh hav hty hsp
    simp [command, hf, hwh, hav, hty, hsp]
  · intro m f wh maxS p d now hf hwh hav hty hsp
    simp [command, hf, hwh, hav, hty, hsp]

/-- Witness: `setpoint_f=150` with `max_setpoint_f=104` on a Celsius device
issues the native equivalent of 104, not of 150. -/
theorem temp_set_clamps_witness :
    ((150:ℚ) > 104) ∧
    command (some heaterEM) 104 tempPayload150 (initState 104 0) 5 =
      (⟨true, none⟩, [.setTargetTemperature (toNativeTemp 104 (some "C"))],
        updateStateFromFacade heaterFacade heaterEM.toManager 5) :=
  ⟨by norm_num,
    temp_set_clamps_to_max.1 heaterEM heaterFacade ⟨true⟩ 104 150 tempPayload150
      (initState 104 0) 5 rfl rfl rfl rfl rfl (by norm_num)⟩

/-- C10: `temp.set` clamps only from above — any numeric setpoint at or below
the configured maximum, however low, is converted to native units and issued
unchanged. -/
theorem temp_set_no_lower_bound :
    ∀ (m : EngineManager) (f : Facade) (wh : WaterHeater) (maxS v : ℚ)
      (p : CmdPayload) (d : Doc) (now : ℚ),
      m.facade = some f → f.waterHeater = some wh → wh.isAvailable = true →
      p.ctype = some "temp.set" → p.setpointF = some (.numeric v) → v ≤ maxS →
      command (some m) maxS p d now =
        (⟨true, none⟩, [.setTargetTemperature (toNativeTemp v f.accessors.tempUnits)],
          updateStateFromFacade f m.toManager now) := by
  intro m f wh maxS v p d now hf hwh hav hty hsp hv
  have hnv : ¬(v > maxS) := not_lt.mpr hv
  simp [command, hf, hwh, hav, hty, hsp, hnv]

/-- Witness: a setpoint of -40°F (far below any plausible water temperature)
is issued unchanged. -/
theorem temp_set_no_lower_bound_witness :
    ((-40:ℚ) ≤ 104) ∧
    command (some heaterEM) 104 tempPayloadNeg (initState 104 0) 5 =
      (⟨true, none⟩, [.setTargetTemperature (toNativeTemp (-40) (some "C"))],
        updateStateFromFacade heaterFacade heaterEM.toManager 5) :=
  ⟨by norm_num,
    temp_set_no_lower_bound heaterEM heaterFacade ⟨true⟩ 104 (-40) tempPayloadNeg
      (initState 104 0) 5 rfl rfl rfl rfl rfl (by norm_num)⟩

/-- C7: `pump.cycle` on a fixed-mode pump whose current mode is in its mode
list advances to the next mode with wrap-around, issuing a turn-off when the
next mode is literally "OFF" (case-insensitively); variable-speed pumps and
pumps with an empty mode list toggle on/off instead. -/
theorem pump_cycle_modes :
    (∀ (m : EngineManager) (f : Facade) (pp : FPump) (rest : List FPump) (maxS : ℚ)
       (p : CmdPayload) (d : Doc) (now : ℚ) (cm : String),
      m.facade = some f → f.pumps = pp :: rest →
      p.ctype = some "pump.cycle" → p.pumpId = none →
      pp.isVariableSpeed = false → pp.mode = some cm → cm ∈ pp.modes →
      command (some m) maxS p d now =
        (⟨true, none⟩,
          (if pyUpper (pp.modes.getD ((pp.modes.indexOf cm + 1) % pp.modes.length) "") = "OFF"
           then [.pumpTurnOff 0]
           else [.pumpSetMode 0
             (pp.modes.getD ((pp.modes.indexOf cm + 1) % pp.modes.length) "")]),
          updateStateFromFacade f m.toManager now)) ∧
    (∀ (m : EngineManager) (f : Facade) (pp : FPump) (rest : List FPump) (maxS : ℚ)
       (p : CmdPayload) (d : Doc) (now : ℚ),
      m.facade = some f → f.pumps = pp :: rest →
      p.ctype = some "pump.cycle" → p.pumpId = none →
      pp.isVariableSpeed = true →
      command (some m) maxS p d now =
        (⟨true, none⟩, (if pp.isOn then [.pumpTurnOff 0] else [.pumpTurnOn 0]),
          updateStateFromFacade f m.toManager now)) ∧
    (∀ (m : EngineManager) (f : Facade) (pp : FPump) (rest : List FPump) (maxS : ℚ)
       (p : CmdPayload) (d : Doc) (now : ℚ),
      m.facade = some f → f.pumps = pp :: rest →
      p.ctype = some "pump.cycle" → p.pumpId = none →
      pp.isVariableSpeed = false → pp.modes = [] →
      command (some m) maxS p d now =
        (⟨true, none⟩, (if pp.isOn then [.pumpTurnOff 0] else [.pumpTurnOn 0]),
          updateStateFromFacade f m.toManager now)) := by
  refine ⟨?_, ?_, ?_⟩
  · intro m f pp rest maxS p d now cm hf hp hty hid hvar hm hcm
    cases hmod : pp.modes with
    | nil => rw [hmod] at hcm; simp at hcm
    | cons m0 r =>
      rw [hmod] at hcm
      simp [command, hf, hp, hty, hid, selectPump, pumpCycleActions, hvar, hm, hmod, hcm]
  · intro m f pp rest maxS p d now hf hp hty hid hvar
    simp [command, hf, hp, hty, hid, selectPump, pumpCycleActions, hvar]
  · intro m f pp rest maxS p d now hf hp hty hid hvar hmod
    simp [command, hf, hp, hty, hid, selectPump, pumpCycleActions, hvar, hmod]

def lowPump : FPump :=
  ⟨some "p1", some "Pump 1", true, some "LOW", false, ["LOW", "HIGH", "OFF"]⟩

def highPump : FPump :=
  ⟨some "p1", some "Pump 1", true, some "HIGH", false, ["LOW", "HIGH", "OFF"]⟩

def pumpFacade (pp : FPump) : Facade := ⟨[], [pp], none, none, none, emptyAccessors⟩

def pumpEM (pp : FPump) : EngineManager :=
  ⟨⟨.connected, none, none, none⟩, some (pumpFacade pp)⟩

def cyclePayload : CmdPayload := ⟨some "pump.cycle", none, none, none⟩

/-- Witness: with modes LOW/HIGH/OFF, cycling at "LOW" issues set-mode
"HIGH", and cycling at "HIGH" issues a turn-off. -/
theorem pump_cycle_modes_witness :
    ("LOW" ∈ ["LOW", "HIGH", "OFF"] ∧
      (command (some (pumpEM lowPump)) 104 cyclePayload (initState 104 0) 5).2.1 =
        [.pumpSetMode 0 "HIGH"]) ∧
    ("HIGH" ∈ ["LOW", "HIGH", "OFF"] ∧
      (command (some (pumpEM highPump)) 104 cyclePayload (initState 104 0) 5).2.1 =
        [.pumpTurnOff 0]) := by
  refine ⟨⟨by decide, ?_⟩, ⟨by decide, ?_⟩⟩
  · rw [pump_cycle_modes.1 (pumpEM lowPump) (pumpFacade lowPump) lowPump [] 104
      cyclePayload (initState 104 0) 5 "LOW" rfl rfl rfl rfl rfl rfl (by decide)]
    decide
  · rw [pump_cycle_modes.1 (pumpEM highPump) (pumpFacade highPump) highPump [] 104
      cyclePayload (initState 104 0) 5 "HIGH" rfl rfl rfl rfl rfl rfl (by decide)]
    decide

/-- The foldl of the error-projection loop collects exactly the trimmed,
non-empty comma tokens in order. -/
theorem projectErrors_foldl (l : List String) (acc : List ErrorEntry) :
    l.foldl errStep acc =
    acc ++ ((l.map pyStrip).filter (fun t => t ≠ "")).map
      (fun code => ⟨code, code, "unknown"⟩) := by
  induction l generalizing acc with
  | nil => simp
  | cons hd tl ih =>
    rw [List.foldl_cons, ih]
    by_cases h : pyStrip hd = ""
    · simp [errStep, h]
    · simp [errStep, h]

/-- C3 counterexample: the device string "S1, None" refutes token-wise
sentinel dropping — the code keeps the token "None" because the sentinel
comparison is made against the whole combined string only. -/
theorem error_projection_counterexample :
    projectErrors "S1, None" ≠ claimProjectErrors "S1, None" := by decide

/-- C3 (amended): the sentinel check applies to the entire combined string;
otherwise the list is the trimmed non-empty comma tokens, each as one entry
with unknown severity, and the two quoted examples hold. -/
theorem error_projection_amended :
    (∀ s : String, s ≠ "" → s ≠ "None" → s ≠ "No errors or warnings" →
      projectErrors s =
        (((pySplit s ',').map pyStrip).filter (fun t => t ≠ "")).map
          (fun code => ⟨code, code, "unknown"⟩)) ∧
    (∀ s : String, s = "" ∨ s = "None" ∨ s = "No errors or warnings" →
      projectErrors s = []) ∧
    projectErrors "S1, S2" = [⟨"S1", "S1", "unknown"⟩, ⟨"S2", "S2", "unknown"⟩] ∧
    projectErrors "No errors or warnings" = [] := by
  refine ⟨?_, ?_, by decide, by decide⟩
  · intro s h1 h2 h3
    simp [projectErrors, h1, h2, h3, projectErrors_foldl]
  · rintro s (rfl | rfl | rfl) <;> simp [projectErrors]

/-- Witness: the amended projection evaluated at "S1, None" (two entries,
with "None" kept as a code). -/
theorem error_projection_amended_witness :
    ("S1, None" ≠ "" ∧ "S1, None" ≠ "None" ∧ "S1, None" ≠ "No errors or warnings") ∧
    projectErrors "S1, None" =
      (((pySplit "S1, None" ',').map pyStrip).filter (fun t => t ≠ "")).map
        (fun code => ⟨code, code, "unknown"⟩) :=
  ⟨⟨by decide, by decide, by decide⟩,
    error_projection_amended.1 "S1, None" (by decide) (by decide) (by decide)⟩

/-- C5: the capabilities dictionary written by the state projector carries
only the four session-derived keys — `maxSetpointF` is present in the initial
pre-connection document but missing from every projected document. -/
theorem projected_capabilities_lack_max :
    (∀ (f : Facade) (m : Manager) (now : ℚ),
      "maxSetpointF" ∉ (updateStateFromFacade f m now).capabilities.keys) ∧
    (∀ (maxS now : ℚ), "maxSetpointF" ∈ (initState maxS now).capabilities.keys) := by
  constructor
  · intro f m now
    have h : (updateStateFromFacade f m now).capabilities.maxSetpointF = none := rfl
    simp [Capabilities.keys, h]
  · intro maxS now
    simp [Capabilities.keys, initState]

/-- C1: on every loop iteration that reaches a connection attempt,
`backoff_s` is reset to 2 before the attempt, and every failure path sleeps
and then `continue`s past (or is immediately reset before) the doubling
statement — so a run of consecutive connection failures sleeps a constant 2
each time, never the claimed 2, 4, 8, ..., 30 doubling. -/
theorem backoff_sleeps_constant :
    ∀ (l : List IterInput) (b : ℕ), (∀ inp ∈ l, failedAttempt inp) →
      runSleeps b l = List.replicate l.length 2 := by
  intro l
  induction l with
  | nil => intro b _; rfl
  | cons hd tl ih =>
    intro b hall
    obtain ⟨hh, hr, hout⟩ := hall hd (by simp)
    have htl : ∀ inp ∈ tl, failedAttempt inp := fun inp hmem => hall inp (by simp [hmem])
    rcases hout with h | h | h <;>
      simp [runSleeps, runIteration, hh, hr, h, ih _ htl, List.replicate_succ]

def failInput : IterInput := ⟨true, true, .discoveryFail⟩

/-- Witness: two consecutive discovery failures sleep 2 and then 2 again
(the claimed doubling would sleep 2 then 4). -/
theorem backoff_sleeps_constant_witness :
    (∀ inp ∈ [failInput, failInput], failedAttempt inp) ∧
    runSleeps 2 [failInput, failInput] = List.replicate 2 2 :=
  ⟨by decide, backoff_sleeps_constant [failInput, failInput] 2 (by decide)⟩

def metaZero : Meta := ⟨0, "DISCONNECTED", none, none, none⟩

def store0 : Store := ⟨fun _ => metaZero, 1⟩

/-- A freshly started client: initial document in cell 0,
`_last_state_request = 0.0`. -/
def sys0 : Sys := ⟨store0, boxDoc (initState 104 0) 0, 0⟩

/-- C2: `get_state` hands out the snapshot but records nothing — the
last-activity marker is untouched by every `get_state` call (only the
separate `note_state_request` writes it), so a state read at time 5 leaves
the idle check negative. -/
theorem get_state_no_activity_marker :
    (∀ s : Sys, (getState s).2.lastStateRequest = s.lastStateRequest ∧
      (getState s).2.doc = s.doc) ∧
    (getState sys0).2.lastStateRequest = 0 ∧
    recentStateRequest (getState sys0).2 5 10 = false ∧
    (noteStateRequest 5 sys0).lastStateRequest = 5 := by
  refine ⟨fun s => ⟨rfl, rfl⟩, rfl, ?_, rfl⟩
  simp [recentStateRequest, getState, sys0]

/-- The claim's notion of a writer that "replaces the whole document value":
the written document is built afresh, independent of the previously published
one. -/
def ReplacesWholeValue (w : Doc → Doc) : Prop :=
  ∀ d₁ d₂ : Doc, w d₁ = w d₂

/-- A document equal to the initial one except for its units label, used to
separate in-place meta mutation from whole-value replacement. -/
def docUnitsX : Doc :=
  { initState 104 0 with temps := { currentF := none, setpointF := none, units := "X" } }

/-- C4 counterexample: `_set_error_state` is not a whole-document
replacement — its result keeps the non-meta fields of whatever document was
current, so it differs on two documents that differ outside `meta`. -/
theorem set_error_not_whole_replacement :
    ¬ ReplacesWholeValue (setErrorState "boom" 5) := by
  intro h
  exact absurd (h (initState 104 0) docUnitsX) (by decide)

/-- Invariant carried by a handed-out snapshot cell `r` holding meta value
`mv`: the cell stays allocated, the live document never points at it, and its
contents never change. -/
def SnapInv (r : ℕ) (mv : Meta) (t : Sys) : Prop :=
  r < t.store.next ∧ t.doc.metaRef ≠ r ∧ t.doc.metaRef < t.store.next ∧
    t.store.read r = mv

theorem snapInv_step (op : SysOp) (t : Sys) (r : ℕ) (mv : Meta)
    (h : SnapInv r mv t) : SnapInv r mv (applySysOp op t) := by
  obtain ⟨h1, h2, h3, h4⟩ := h
  cases op with
  | write w =>
    cases w with
    | project f m now =>
      refine ⟨Nat.lt_succ_of_lt h1, Nat.ne_of_gt h1, Nat.lt_succ_self _, ?_⟩
      show (if r = t.store.next then _ else t.store.mem r) = mv
      rw [if_neg (Nat.ne_of_lt h1)]
      exact h4
    | setErr message now =>
      refine ⟨h1, h2, h3, ?_⟩
      show (if r = t.doc.metaRef then _ else t.store.mem r) = mv
      rw [if_neg (fun he => h2 he.symm)]
      exact h4
    | setConn cs now =>
      refine ⟨h1, h2, h3, ?_⟩
      show (if r = t.doc.metaRef then _ else t.store.mem r) = mv
      rw [if_neg (fun he => h2 he.symm)]
      exact h4
  | readState =>
    refine ⟨Nat.lt_succ_of_lt h1, h2, Nat.lt_succ_of_lt h3, ?_⟩
    show (if r = t.store.next then _ else t.store.mem r) = mv
    rw [if_neg (Nat.ne_of_lt h1)]
    exact h4
  | note now => exact ⟨h1, h2, h3, h4⟩

theorem snapInv_run (ops : List SysOp) (t : Sys) (r : ℕ) (mv : Meta)
    (h : SnapInv r mv t) : SnapInv r mv (applySysOps ops t) := by
  induction ops generalizing t with
  | nil => exact h
  | cons op rest ih => exact ih _ (snapInv_step op t r mv h)

/-- C4 (amended): the projection writer replaces the whole document with a
value independent of the previous one; the error/connection writers update
only the meta fields of the current document in place; every writer is one
atomic lock-held step on the published value; and a snapshot handed out by
`get_state` equals the fully-formed published value at read time and is never
changed by any later sequence of operations. -/
theorem state_writers_atomic_and_isolated :
    (∀ (f : Facade) (m : Manager) (now : ℚ),
      ReplacesWholeValue (pureWrite (.project f m now))) ∧
    (∀ (message : String) (now : ℚ) (d : Doc),
      (setErrorState message now d).temps = d.temps ∧
      (setErrorState message now d).heater = d.heater ∧
      (setErrorState message now d).pumps = d.pumps ∧
      (setErrorState message now d).lights = d.lights ∧
      (setErrorState message now d).errors = d.errors ∧
      (setErrorState message now d).capabilities = d.capabilities) ∧
    (∀ (cs : String) (now : ℚ) (d : Doc),
      (setConnectionState cs now d).temps = d.temps ∧
      (setConnectionState cs now d).heater = d.heater ∧
      (setConnectionState cs now d).pumps = d.pumps ∧
      (setConnectionState cs now d).lights = d.lights ∧
      (setConnectionState cs now d).errors = d.errors ∧
      (setConnectionState cs now d).capabilities = d.capabilities) ∧
    (∀ (w : WriterOp) (s : Sys), docValue (applyWriter w s) = pureWrite w (docValue s)) ∧
    (∀ s : Sys, s.wf → ∀ ops : List SysOp,
      derefDoc (applySysOps ops (getState s).2).store (getState s).1 = docValue s) := by
  refine ⟨fun f m now d₁ d₂ => rfl, fun message now d => ⟨rfl, rfl, rfl, rfl, rfl, rfl⟩,
    fun cs now d => ⟨rfl, rfl, rfl, rfl, rfl, rfl⟩, ?_, ?_⟩
  · intro w s
    cases w with
    | project f m now =>
      simp [docValue, derefDoc, applyWriter, pureWrite, Store.alloc, Store.read, boxDoc]
    | setErr message now =>
      simp [docValue, derefDoc, applyWriter, pureWrite, Store.write, Store.read,
        setErrorState]
    | setConn cs now =>
      simp [docValue, derefDoc, applyWriter, pureWrite, Store.write, Store.read,
        setConnectionState]
  · intro s hwf ops
    have hinv : SnapInv s.store.next (s.store.read s.doc.metaRef) (getState s).2 := by
      refine ⟨Nat.lt_succ_self _, Nat.ne_of_lt hwf, Nat.lt_succ_of_lt hwf, ?_⟩
      show (if s.store.next = s.store.next then _ else _) = _
      rw [if_pos rfl]
    have hrun := snapInv_run ops _ _ _ hinv
    obtain ⟨-, -, -, h4⟩ := hrun
    show derefDoc _ { s.doc with metaRef := s.store.next } = docValue s
    unfold derefDoc docValue
    rw [show (applySysOps ops (getState s).2).store.read
        ({ s.doc with metaRef := s.store.next } : HDoc).metaRef =
        s.store.read s.doc.metaRef from h4]
    rfl

def writerOpsSample : List SysOp :=
  [.write (.setErr "ping missed" 7), .readState, .note 9,
    .write (.setConn "DISCONNECTED" 11)]

/-- Witness: a snapshot taken from the freshly started client is unchanged by
a later error write, a concurrent read, an activity note, and a connection
write. -/
theorem state_writers_isolated_witness :
    sys0.wf ∧
    derefDoc (applySysOps writerOpsSample (getState sys0).2).store (getState sys0).1 =
      docValue sys0 :=
  ⟨Nat.zero_lt_one,
    (state_writers_atomic_and_isolated.2.2.2.2) sys0 Nat.zero_lt_one writerOpsSample⟩

end SpaEngine
